import Mathlib

set_option maxRecDepth 10000

/- The Batteries rational-number operations are marked irreducible, which is
an elaborator-only setting; the concrete probability computations below are
settled by `decide`, whose evaluation needs to unfold them. -/
set_option allowUnsafeReducibility true
attribute [semireducible] Rat.mul Rat.add Rat.sub Rat.neg Rat.inv Rat.div Rat.ofScientific

/-
Verification of the six-variable medical-diagnosis Bayesian network encoded by
the three scripts of this repository (reyBayesiana.py with pomegranate,
redBayesianaPmgpy.py with pgmpy, redBayesianaPyMC.py with PyMC).

State indices follow the state-name lists of the sources: for `PG` the order
is Alta = 0, Media = 1, Baja = 2; for every other variable Sí = 0, No = 1
(the order used by the pgmpy `state_names` and by the pomegranate tables).
Probabilities are exact rationals.
-/

/-- The six random variables of the network, in the declaration order of
`crear_red_pgmpy` (edges PG→Gripe, PG→Neumonia, Gripe→Fiebre, Neumonia→Fiebre,
Neumonia→Tos, Gripe→Dolor_cabeza). -/
inductive Var where
  | PG
  | Gripe
  | Neumonia
  | Fiebre
  | Tos
  | Dolor_cabeza
deriving DecidableEq, BEq, Repr

/-- Cardinality of each variable: PG has three states, the rest two. -/
def card : Var → Nat
  | .PG => 3
  | _ => 2

/-- State labels of each variable, in the order of the sources. -/
def estados : Var → List String
  | .PG => ["Alta", "Media", "Baja"]
  | _ => ["Sí", "No"]

/-- The variable bearing a given name (the names used by all three scripts). -/
def varOfName : String → Option Var
  | "PG" => some .PG
  | "Gripe" => some .Gripe
  | "Neumonia" => some .Neumonia
  | "Fiebre" => some .Fiebre
  | "Tos" => some .Tos
  | "Dolor_cabeza" => some .Dolor_cabeza
  | _ => none

/-- Name of a variable. -/
def nombre : Var → String
  | .PG => "PG"
  | .Gripe => "Gripe"
  | .Neumonia => "Neumonia"
  | .Fiebre => "Fiebre"
  | .Tos => "Tos"
  | .Dolor_cabeza => "Dolor_cabeza"

/-- Index of a state label in a variable's state list. -/
def stateIndex (v : Var) (s : String) : Option Nat :=
  (estados v).indexOf? s

/- ===== CPTs of the pgmpy variant (redBayesianaPmgpy.py, crear_red_pgmpy) ===== -/

/-- `cpd_pg`: prior of PG, values [[0.3], [0.4], [0.3]] over Alta/Media/Baja. -/
def cpd_pg : Nat → ℚ
  | 0 => 0.3
  | 1 => 0.4
  | 2 => 0.3
  | _ => 0

/-- `cpd_gripe`: P(Gripe | PG), rows = Gripe ∈ [Sí, No], columns = PG ∈
[Alta, Media, Baja]; values [[0.6, 0.4, 0.2], [0.4, 0.6, 0.8]]. -/
def cpd_gripe : Nat → Nat → ℚ
  | 0, 0 => 0.6
  | 0, 1 => 0.4
  | 0, 2 => 0.2
  | 1, 0 => 0.4
  | 1, 1 => 0.6
  | 1, 2 => 0.8
  | _, _ => 0

/-- `cpd_neumonia`: P(Neumonia | PG), values [[0.7, 0.5, 0.3], [0.3, 0.5, 0.7]]. -/
def cpd_neumonia : Nat → Nat → ℚ
  | 0, 0 => 0.7
  | 0, 1 => 0.5
  | 0, 2 => 0.3
  | 1, 0 => 0.3
  | 1, 1 => 0.5
  | 1, 2 => 0.7
  | _, _ => 0

/-- `cpd_fiebre`: P(Fiebre | Gripe, Neumonia), rows = Fiebre ∈ [Sí, No],
columns = (Gripe, Neumonia) ∈ [(Sí,Sí), (Sí,No), (No,Sí), (No,No)];
values [[0.9, 0.8, 0.7, 0.1], [0.1, 0.2, 0.3, 0.9]]. -/
def cpd_fiebre : Nat → Nat → Nat → ℚ
  | 0, 0, 0 => 0.9
  | 0, 0, 1 => 0.8
  | 0, 1, 0 => 0.7
  | 0, 1, 1 => 0.1
  | 1, 0, 0 => 0.1
  | 1, 0, 1 => 0.2
  | 1, 1, 0 => 0.3
  | 1, 1, 1 => 0.9
  | _, _, _ => 0

/-- `cpd_tos`: P(Tos | Neumonia), values [[0.8, 0.2], [0.2, 0.8]]
(columns = Neumonia ∈ [Sí, No]). -/
def cpd_tos : Nat → Nat → ℚ
  | 0, 0 => 0.8
  | 0, 1 => 0.2
  | 1, 0 => 0.2
  | 1, 1 => 0.8
  | _, _ => 0

/-- `cpd_dolor`: P(Dolor_cabeza | Gripe), values [[0.7, 0.3], [0.3, 0.7]]
(columns = Gripe ∈ [Sí, No]). -/
def cpd_dolor : Nat → Nat → ℚ
  | 0, 0 => 0.7
  | 0, 1 => 0.3
  | 1, 0 => 0.3
  | 1, 1 => 0.7
  | _, _ => 0

/- ===== CPTs of the pomegranate variant (reyBayesiana.py, crear_red_bayesiana).
Each table row of the source lists the parent states, then the child state,
then the weight; arguments below follow that order (parents first). ===== -/

/-- `pg` (DiscreteDistribution): Alta 0.3, Media 0.4, Baja 0.3. -/
def pgPom : Nat → ℚ
  | 0 => 0.3
  | 1 => 0.4
  | 2 => 0.3
  | _ => 0

/-- `gripe` (ConditionalProbabilityTable given PG): rows
[Alta,Sí,0.6], [Alta,No,0.4], [Media,Sí,0.4], [Media,No,0.6],
[Baja,Sí,0.2], [Baja,No,0.8]. -/
def gripePom : Nat → Nat → ℚ
  | 0, 0 => 0.6
  | 0, 1 => 0.4
  | 1, 0 => 0.4
  | 1, 1 => 0.6
  | 2, 0 => 0.2
  | 2, 1 => 0.8
  | _, _ => 0

/-- `neumonia` (given PG): rows [Alta,Sí,0.7], [Alta,No,0.3], [Media,Sí,0.5],
[Media,No,0.5], [Baja,Sí,0.3], [Baja,No,0.7]. -/
def neumoniaPom : Nat → Nat → ℚ
  | 0, 0 => 0.7
  | 0, 1 => 0.3
  | 1, 0 => 0.5
  | 1, 1 => 0.5
  | 2, 0 => 0.3
  | 2, 1 => 0.7
  | _, _ => 0

/-- `fiebre` (given Gripe, Neumonia): rows [Sí,Sí,Sí,0.9], [Sí,Sí,No,0.1],
[Sí,No,Sí,0.8], [Sí,No,No,0.2], [No,Sí,Sí,0.7], [No,Sí,No,0.3],
[No,No,Sí,0.1], [No,No,No,0.9]. -/
def fiebrePom : Nat → Nat → Nat → ℚ
  | 0, 0, 0 => 0.9
  | 0, 0, 1 => 0.1
  | 0, 1, 0 => 0.8
  | 0, 1, 1 => 0.2
  | 1, 0, 0 => 0.7
  | 1, 0, 1 => 0.3
  | 1, 1, 0 => 0.1
  | 1, 1, 1 => 0.9
  | _, _, _ => 0

/-- `tos` (given Neumonia): rows [Sí,Sí,0.8], [Sí,No,0.2], [No,Sí,0.3],
[No,No,0.7]. -/
def tosPom : Nat → Nat → ℚ
  | 0, 0 => 0.8
  | 0, 1 => 0.2
  | 1, 0 => 0.3
  | 1, 1 => 0.7
  | _, _ => 0

/-- `dolor_cabeza` (given Gripe): rows [Sí,Sí,0.7], [Sí,No,0.3], [No,Sí,0.2],
[No,No,0.8]. -/
def dolorPom : Nat → Nat → ℚ
  | 0, 0 => 0.7
  | 0, 1 => 0.3
  | 1, 0 => 0.2
  | 1, 1 => 0.8
  | _, _ => 0

/- ===== Conditional probabilities of the PyMC variant (redBayesianaPyMC.py,
crear_modelo_bayesiano). PyMC encodes the binary variables as Bernoulli bits
with 1 = Sí, 0 = No (its `valores_posibles` lists ['No', 'Sí'] coded 0, 1),
and PG as a Categorical with index 0 = Alta, 1 = Media, 2 = Baja. ===== -/

/-- `pg_probs = [0.3, 0.4, 0.3]` (Alta, Media, Baja). -/
def pg_probs : Nat → ℚ
  | 0 => 0.3
  | 1 => 0.4
  | 2 => 0.3
  | _ => 0

/-- `p_gripe`: switch(eq(pg,0), 0.6, switch(eq(pg,1), 0.4, 0.2)). -/
def p_gripe (pg : Nat) : ℚ :=
  if pg == 0 then 0.6 else if pg == 1 then 0.4 else 0.2

/-- `p_neumonia`: switch(eq(pg,0), 0.7, switch(eq(pg,1), 0.5, 0.3)). -/
def p_neumonia (pg : Nat) : ℚ :=
  if pg == 0 then 0.7 else if pg == 1 then 0.5 else 0.3

/-- `p_fiebre`: 0.9 if gripe=1 ∧ neumonia=1; 0.8 if gripe=1 ∧ neumonia=0;
0.7 if gripe=0 ∧ neumonia=1; else 0.1 (bits, 1 = Sí). -/
def p_fiebre (gripe neumonia : Nat) : ℚ :=
  if gripe == 1 && neumonia == 1 then 0.9
  else if gripe == 1 && neumonia == 0 then 0.8
  else if gripe == 0 && neumonia == 1 then 0.7
  else 0.1

/-- `p_tos`: switch(eq(neumonia,1), 0.8, 0.3). -/
def p_tos (neumonia : Nat) : ℚ :=
  if neumonia == 1 then 0.8 else 0.3

/-- `p_dolor`: switch(eq(gripe,1), 0.7, 0.2). -/
def p_dolor (gripe : Nat) : ℚ :=
  if gripe == 1 then 0.7 else 0.2

/-- Probability mass of a Bernoulli(p) at a bit (1 = Sí, 0 = No). -/
def bern (p : ℚ) (bit : Nat) : ℚ :=
  if bit == 1 then p else 1 - p

/-- Translation from the shared state index (Sí = 0, No = 1) to the PyMC
Bernoulli bit (Sí = 1, No = 0). -/
def siBit (k : Nat) : Nat :=
  if k == 0 then 1 else 0

/- ===== Joint distributions ===== -/

/-- A full assignment of the six variables (state indices). -/
structure Asg where
  pg : Nat
  gripe : Nat
  neumonia : Nat
  fiebre : Nat
  tos : Nat
  dolor : Nat
deriving DecidableEq, Repr

/-- Value of an assignment at a variable. -/
def Asg.app (a : Asg) : Var → Nat
  | .PG => a.pg
  | .Gripe => a.gripe
  | .Neumonia => a.neumonia
  | .Fiebre => a.fiebre
  | .Tos => a.tos
  | .Dolor_cabeza => a.dolor

/-- All 3·2·2·2·2·2 = 96 full assignments. -/
def allAsgs : List Asg :=
  (List.range 3).flatMap fun pg =>
    (List.range 2).flatMap fun g =>
      (List.range 2).flatMap fun n =>
        (List.range 2).flatMap fun f =>
          (List.range 2).flatMap fun t =>
            (List.range 2).map fun d => ⟨pg, g, n, f, t, d⟩

/-- Joint distribution encoded by the pgmpy model: the product of its CPDs. -/
def jointPgmpy (a : Asg) : ℚ :=
  cpd_pg a.pg * cpd_gripe a.gripe a.pg * cpd_neumonia a.neumonia a.pg *
    cpd_fiebre a.fiebre a.gripe a.neumonia * cpd_tos a.tos a.neumonia *
    cpd_dolor a.dolor a.gripe

/-- Joint distribution encoded by the pomegranate model. -/
def jointPom (a : Asg) : ℚ :=
  pgPom a.pg * gripePom a.pg a.gripe * neumoniaPom a.pg a.neumonia *
    fiebrePom a.gripe a.neumonia a.fiebre * tosPom a.neumonia a.tos *
    dolorPom a.gripe a.dolor

/-- Joint distribution encoded by the PyMC model. -/
def jointPyMC (a : Asg) : ℚ :=
  pg_probs a.pg * bern (p_gripe a.pg) (siBit a.gripe) *
    bern (p_neumonia a.pg) (siBit a.neumonia) *
    bern (p_fiebre (siBit a.gripe) (siBit a.neumonia)) (siBit a.fiebre) *
    bern (p_tos (siBit a.neumonia)) (siBit a.tos) *
    bern (p_dolor (siBit a.gripe)) (siBit a.dolor)

/- ===== Direct-enumeration oracle ===== -/

/-- Whether an assignment matches an evidence list (variable, state index). -/
def matchesEv (ev : List (Var × Nat)) (a : Asg) : Bool :=
  ev.all fun p => a.app p.1 == p.2

/-- Total weight of the evidence under a joint distribution (its support). -/
def support (joint : Asg → ℚ) (ev : List (Var × Nat)) : ℚ :=
  ((allAsgs.filter (matchesEv ev)).map joint).sum

/-- Posterior P(x = k | ev) by direct enumeration of the joint. -/
def enumPosterior (joint : Asg → ℚ) (x : Var) (k : Nat)
    (ev : List (Var × Nat)) : ℚ :=
  ((allAsgs.filter fun a => matchesEv ev a && a.app x == k).map joint).sum /
    support joint ev

/-- Posterior distribution of a variable given evidence, by enumeration. -/
def enumDist (joint : Asg → ℚ) (x : Var) (ev : List (Var × Nat)) : List ℚ :=
  (List.range (card x)).map fun k => enumPosterior joint x k ev


/- ===== Factor algebra and variable-elimination engine =====

Modelled from the spec: the inference engines invoked by the scripts
(pgmpy's `VariableElimination` and pomegranate's `predict_proba`) are library
code that is not part of this repository; the Factor operations below follow
spec §4.2 (product, marginalize, reduce-by-evidence, normalize) and the query
protocol follows spec §4.5 (reduce by evidence, eliminate in the given order,
multiply the remaining factors, normalize). -/

/-- A factor: a scope and a weight function over full assignments that is
meant to depend only on the scope's variables. -/
structure Factor where
  scope : List Var
  val : (Var → Nat) → ℚ

/-- Point update of an assignment function. -/
def updateA (a : Var → Nat) (v : Var) (k : Nat) : Var → Nat :=
  fun w => if w = v then k else a w

/-- `reduceByEvidence`: restrict a factor to the slice where `v = s`,
removing `v` from the scope; a factor not mentioning `v` is unchanged. -/
def reduceByEvidence (f : Factor) (v : Var) (s : Nat) : Factor :=
  if f.scope.contains v then
    ⟨f.scope.erase v, fun a => f.val (updateA a v s)⟩
  else f

/-- `marginalize`: sum a variable out of a factor. -/
def sumOutVar (f : Factor) (v : Var) : Factor :=
  ⟨f.scope.erase v, fun a => ((List.range (card v)).map fun k => f.val (updateA a v k)).sum⟩

/-- `product` of a list of factors: scope is the union (first-occurrence
order), value is the pointwise product. -/
def prodFactors (fs : List Factor) : Factor :=
  ⟨fs.foldl (fun acc f => acc ++ f.scope.filter (fun v => !acc.contains v)) [],
    fun a => (fs.map fun f => f.val a).prod⟩

/-- Eliminate one variable: collect every factor whose scope contains it,
replace them by the marginalized product. -/
def eliminate (fs : List Factor) (v : Var) : List Factor :=
  let part := fs.partition fun f => f.scope.contains v
  part.2 ++ [sumOutVar (prodFactors part.1) v]

/-- `normalize`: divide the weights by their sum; fails with
`DegenerateFactorError` when the sum is zero. -/
def normalizeDist (ws : List ℚ) : Except String (List ℚ) :=
  if ws.sum = 0 then .error ("DegenerateFactorError")
  else .ok (ws.map fun w => w / ws.sum)

/-- All joint assignments of a target list, as updates of the all-zero
assignment function. -/
def targetAssignments (ts : List Var) : List (Var → Nat) :=
  ts.foldl
    (fun acc t => acc.flatMap fun a => (List.range (card t)).map fun k => updateA a t k)
    [fun _ => 0]

/-- The variable-elimination query: reduce the CPT factors by the evidence,
eliminate the ordered nuisance variables, multiply what remains, and
normalize over the target assignments. -/
def veQuery (cpts : List Factor) (targets : List Var) (ev : List (Var × Nat))
    (order : List Var) : Except String (List ℚ) :=
  let reduced := cpts.map fun f => ev.foldl (fun g p => reduceByEvidence g p.1 p.2) f
  let remaining := order.foldl eliminate reduced
  let final := prodFactors remaining
  normalizeDist ((targetAssignments targets).map final.val)

instance {ε α : Type} [DecidableEq ε] [DecidableEq α] : DecidableEq (Except ε α) := fun a b =>
  match a, b with
  | .ok x, .ok y =>
    if h : x = y then .isTrue (by rw [h]) else .isFalse (by simp [h])
  | .error x, .error y =>
    if h : x = y then .isTrue (by rw [h]) else .isFalse (by simp [h])
  | .ok _, .error _ => .isFalse (by simp)
  | .error _, .ok _ => .isFalse (by simp)

/- ===== The pgmpy model (redBayesianaPmgpy.py) as a list of CPT factors ===== -/

/-- Factor of `cpd_pg` (scope: the variable, then its evidence list). -/
def factorPG : Factor := ⟨[.PG], fun a => cpd_pg (a .PG)⟩

/-- Factor of `cpd_gripe`. -/
def factorGripe : Factor := ⟨[.Gripe, .PG], fun a => cpd_gripe (a .Gripe) (a .PG)⟩

/-- Factor of `cpd_neumonia`. -/
def factorNeumonia : Factor := ⟨[.Neumonia, .PG], fun a => cpd_neumonia (a .Neumonia) (a .PG)⟩

/-- Factor of `cpd_fiebre`. -/
def factorFiebre : Factor :=
  ⟨[.Fiebre, .Gripe, .Neumonia], fun a => cpd_fiebre (a .Fiebre) (a .Gripe) (a .Neumonia)⟩

/-- Factor of `cpd_tos`. -/
def factorTos : Factor := ⟨[.Tos, .Neumonia], fun a => cpd_tos (a .Tos) (a .Neumonia)⟩

/-- Factor of `cpd_dolor`. -/
def factorDolor : Factor := ⟨[.Dolor_cabeza, .Gripe], fun a => cpd_dolor (a .Dolor_cabeza) (a .Gripe)⟩

/-- The six CPT factors added by `modelo.add_cpds(...)`. -/
def cptsPgmpy : List Factor :=
  [factorPG, factorGripe, factorNeumonia, factorFiebre, factorTos, factorDolor]

/-- The model variables in declaration order. -/
def modelVars : List Var := [.PG, .Gripe, .Neumonia, .Fiebre, .Tos, .Dolor_cabeza]


/- ===== Model validation (crear_red_pgmpy) ===== -/

/-- The per-parent-assignment sums over the child's states, one entry per
column of each TabularCPD of the pgmpy model. -/
def cptRowSumsPgmpy : List ℚ :=
  [((List.range 3).map cpd_pg).sum]
    ++ ((List.range 3).map fun pg => ((List.range 2).map fun g => cpd_gripe g pg).sum)
    ++ ((List.range 3).map fun pg => ((List.range 2).map fun n => cpd_neumonia n pg).sum)
    ++ ((List.range 2).flatMap fun g =>
        (List.range 2).map fun n => ((List.range 2).map fun f => cpd_fiebre f g n).sum)
    ++ ((List.range 2).map fun n => ((List.range 2).map fun t => cpd_tos t n).sum)
    ++ ((List.range 2).map fun g => ((List.range 2).map fun d => cpd_dolor d g).sum)

/-- The same sums for the pomegranate tables (one entry per parent
assignment of each ConditionalProbabilityTable, plus the prior). -/
def cptRowSumsPom : List ℚ :=
  [((List.range 3).map pgPom).sum]
    ++ ((List.range 3).map fun pg => ((List.range 2).map fun g => gripePom pg g).sum)
    ++ ((List.range 3).map fun pg => ((List.range 2).map fun n => neumoniaPom pg n).sum)
    ++ ((List.range 2).flatMap fun g =>
        (List.range 2).map fun n => ((List.range 2).map fun f => fiebrePom g n f).sum)
    ++ ((List.range 2).map fun n => ((List.range 2).map fun t => tosPom n t).sum)
    ++ ((List.range 2).map fun g => ((List.range 2).map fun d => dolorPom g d).sum)

/-- Modelled from the spec: `modelo.check_model()` is pgmpy library code; per
spec §4.3 and §8 it verifies the local-normalization invariant of every CPT
within a tolerance of 1e-6. -/
def check_model : Bool :=
  cptRowSumsPgmpy.all fun z => decide (|z - 1| ≤ 1 / 1000000)

/-- `crear_red_pgmpy` runs `assert modelo.check_model()` before returning the
model; a failing assertion escapes as an exception, modelled as `none`. -/
def crear_red_pgmpy : Option (List Factor) :=
  if check_model then some cptsPgmpy else none

/- ===== diagnosticar_pgmpy (redBayesianaPmgpy.py) ===== -/

/-- The name list of the membership test in `diagnosticar_pgmpy`
(`if nombre in ['Fiebre', 'Tos', 'Dolor_cabeza', 'Gripe', 'Neumonia', 'PG']`). -/
def reconocidos : List String :=
  ["Fiebre", "Tos", "Dolor_cabeza", "Gripe", "Neumonia", "PG"]

/-- Initial value of the `enfermedades` list. -/
def enfermedadesInit : List String :=
  ["PG", "Gripe", "Neumonia", "Tos", "Fiebre", "Dolor_cabeza"]

/-- One iteration of the evidence-collection loop of `diagnosticar_pgmpy`: a
recognized name is added to `evidencias` and removed from `enfermedades`. -/
def paso (acc : List (String × String) × List String) (p : String × String) :
    List (String × String) × List String :=
  if reconocidos.contains p.1 then (acc.1 ++ [p], acc.2.erase p.1) else acc

/-- The evidence-collection loop over `sintomas.items()` (`sintomas` is a
Python dict, so its keys are unique); yields (evidencias, enfermedades). -/
def procesar (sintomas : List (String × String)) :
    List (String × String) × List String :=
  sintomas.foldl paso ([], enfermedadesInit)

/-- Conversion of one (name, state-label) evidence pair into the engine's
(variable, state-index) form; pgmpy rejects unknown names and labels. -/
def toEvidence (p : String × String) : Except String (Var × Nat) :=
  match varOfName p.1 with
  | none => .error ("UnknownVariableError")
  | some v =>
    match stateIndex v p.2 with
    | none => .error ("InvalidStateError")
    | some k => .ok (v, k)

/-- `infer.query(variables=[enf], evidence=evidencias)`. Modelled from the
spec: pgmpy's `VariableElimination.query` is library code; per §4.5 it runs
variable elimination over the model's CPT factors, eliminating the
non-target, non-evidence variables (declaration-order baseline of §4.4). -/
def queryPgmpy (enf : String) (evidencias : List (String × String)) :
    Except String (List ℚ) :=
  match varOfName enf with
  | none => .error ("UnknownVariableError")
  | some v => do
    let ev ← evidencias.mapM toEvidence
    veQuery cptsPgmpy [v] ev
      (modelVars.filter fun w => (w != v) && !(ev.any fun p => p.1 == w))

/-- The query loop of `diagnosticar_pgmpy`: each disease of `enfermedades` is
queried in order and stored in the `diagnostico` dict; the first exception
aborts the loop. -/
def consultas (evidencias : List (String × String)) :
    List String → Except String (List (String × List ℚ))
  | [] => .ok []
  | enf :: rest => do
    let d ← queryPgmpy enf evidencias
    let tail ← consultas evidencias rest
    pure ((enf, d) :: tail)

/-- `diagnosticar_pgmpy`: build the evidence, query every remaining variable,
return the diagnosis dict; any exception is caught (its message printed) and
`None` is returned instead. -/
def diagnosticarPgmpy (sintomas : List (String × String)) :
    Option (List (String × List ℚ)) :=
  match consultas (procesar sintomas).1 (procesar sintomas).2 with
  | .ok diag => some diag
  | .error _ => none

/- ===== diagnosticar (reyBayesiana.py, pomegranate variant) ===== -/

/-- The evidence binding emitted for one `sintomas` item by the if/elif chain
of `diagnosticar`: the three symptom names are forwarded under the same name,
any other key contributes nothing. -/
def emitSintoma (p : String × String) : List (String × String) :=
  if p.1 == "Fiebre" then [("Fiebre", p.2)]
  else if p.1 == "Tos" then [("Tos", p.2)]
  else if p.1 == "Dolor_cabeza" then [("Dolor_cabeza", p.2)]
  else []

/-- The evidence-building loop of `diagnosticar` (pomegranate variant). -/
def evidenciasPom (sintomas : List (String × String)) : List (String × String) :=
  sintomas.foldl (fun acc p => acc ++ emitSintoma p) []

/-- The constraint a (dict-semantics) evidence list places on one variable. -/
def constraintOf (ev : List (String × String)) (v : Var) : Option String :=
  List.lookup (nombre v) ev

/-- The evidence constraints as (variable, state-index) pairs; an invalid
state label is an error. -/
def consToEv (cons : Var → Option String) : Except String (List (Var × Nat)) :=
  (modelVars.filterMap fun v => (cons v).map fun s => (v, s)).mapM fun p =>
    match stateIndex p.1 p.2 with
    | none => .error ("InvalidStateError")
    | some k => .ok (p.1, k)

/-- Modelled from the spec: pomegranate's `predict_proba` is library code;
per the spec's query contract it returns, for every variable in `add_states`
order, the posterior marginal given the evidence dict, failing on an invalid
state label or on zero-support evidence (`DegenerateFactorError`). -/
def predictCore (cons : Var → Option String) : Except String (List (List ℚ)) := do
  let ev ← consToEv cons
  if support jointPom ev = 0 then .error ("DegenerateFactorError")
  else .ok (modelVars.map fun v => enumDist jointPom v ev)

/-- `modelo.predict_proba(evidencias)` on the evidence dict. -/
def predict_proba (ev : List (String × String)) : Except String (List (List ℚ)) :=
  predictCore (constraintOf ev)

/-- `diagnosticar` (pomegranate): forward the three symptom keys as evidence,
run `predict_proba`, keep the distributions of PG, Gripe and Neumonia
(`result[0]`, `result[1]`, `result[2]`); any exception is caught (printed)
and `None` is returned. -/
def diagnosticarPom (sintomas : List (String × String)) :
    Option (List (String × List ℚ)) :=
  match predict_proba (evidenciasPom sintomas) with
  | .ok result =>
    some [("PG", result[0]!), ("Gripe", result[1]!), ("Neumonia", result[2]!)]
  | .error _ => none

/- ===== Concrete inputs and enumerated query sets ===== -/

/-- The case-1 symptoms of both scripts' `main`:
`{'Fiebre': 'Sí', 'Tos': 'Sí', 'Dolor_cabeza': 'No'}`. -/
def sintomasCaso1 : List (String × String) :=
  [("Fiebre", "Sí"), ("Tos", "Sí"), ("Dolor_cabeza", "No")]

/-- The case-1 evidence in (variable, state-index) form. -/
def evidenciaCaso1 : List (Var × Nat) :=
  [(.Fiebre, 0), (.Tos, 0), (.Dolor_cabeza, 1)]

/-- The `Gripe` entry of the case-1 diagnosis of the pgmpy variant. -/
def distGripeCaso1 : Option (List ℚ) :=
  (diagnosticarPgmpy sintomasCaso1).bind fun d => List.lookup ("Gripe") d

/-- Extend a list of evidence choices with the three options for one
variable: absent, state 0 (Sí) or state 1 (No). -/
def conOpciones (v : Var) (ls : List (List (Var × Nat))) : List (List (Var × Nat)) :=
  ls.flatMap fun e => [e, e ++ [(v, 0)], e ++ [(v, 1)]]

/-- All 27 evidence assignments over the symptom set
{Fiebre, Tos, Dolor_cabeza} (each absent, Sí or No). -/
def evidenceCombos : List (List (Var × Nat)) :=
  conOpciones .Dolor_cabeza (conOpciones .Tos (conOpciones .Fiebre [[]]))

/-- The eight full symptom dictionaries with valid Sí/No values. -/
def sintomasValidosFull : List (List (String × String)) :=
  ["Sí", "No"].flatMap fun f =>
    ["Sí", "No"].flatMap fun t =>
      ["Sí", "No"].map fun d => [("Fiebre", f), ("Tos", t), ("Dolor_cabeza", d)]

/-- A query answered directly from the enumeration oracle, normalized by
`normalizeDist` (so it fails with `DegenerateFactorError` exactly when the
evidence has zero support). -/
def enumQuery (joint : Asg → ℚ) (x : Var) (ev : List (Var × Nat)) :
    Except String (List ℚ) :=
  normalizeDist ((List.range (card x)).map fun k =>
    ((allAsgs.filter fun a => matchesEv ev a && a.app x == k).map joint).sum)

/-- All CPT entries of the pgmpy model. -/
def cptEntriesPgmpy : List ℚ :=
  ((List.range 3).map cpd_pg)
    ++ ((List.range 2).flatMap fun g => (List.range 3).map fun pg => cpd_gripe g pg)
    ++ ((List.range 2).flatMap fun n => (List.range 3).map fun pg => cpd_neumonia n pg)
    ++ ((List.range 2).flatMap fun f =>
        (List.range 2).flatMap fun g => (List.range 2).map fun n => cpd_fiebre f g n)
    ++ ((List.range 2).flatMap fun t => (List.range 2).map fun n => cpd_tos t n)
    ++ ((List.range 2).flatMap fun d => (List.range 2).map fun g => cpd_dolor d g)

/-- All table entries of the pomegranate model. -/
def cptEntriesPom : List ℚ :=
  ((List.range 3).map pgPom)
    ++ ((List.range 3).flatMap fun pg => (List.range 2).map fun g => gripePom pg g)
    ++ ((List.range 3).flatMap fun pg => (List.range 2).map fun n => neumoniaPom pg n)
    ++ ((List.range 2).flatMap fun g =>
        (List.range 2).flatMap fun n => (List.range 2).map fun f => fiebrePom g n f)
    ++ ((List.range 2).flatMap fun n => (List.range 2).map fun t => tosPom n t)
    ++ ((List.range 2).flatMap fun g => (List.range 2).map fun d => dolorPom g d)

/-- All conditional weights of the PyMC model (each Bernoulli/Categorical
probability and its complement). -/
def cptEntriesPyMC : List ℚ :=
  ((List.range 3).map pg_probs)
    ++ ((List.range 3).flatMap fun pg => (List.range 2).map fun b => bern (p_gripe pg) b)
    ++ ((List.range 3).flatMap fun pg => (List.range 2).map fun b => bern (p_neumonia pg) b)
    ++ ((List.range 2).flatMap fun g =>
        (List.range 2).flatMap fun n => (List.range 2).map fun b => bern (p_fiebre g n) b)
    ++ ((List.range 2).flatMap fun n => (List.range 2).map fun b => bern (p_tos n) b)
    ++ ((List.range 2).flatMap fun g => (List.range 2).map fun b => bern (p_dolor g) b)

/- ===== General lemmas ===== -/

/-- A list that is a permutation of a two-element list is one of its two
arrangements. -/
theorem perm_pair_cases {α : Type} {a b : α} {l : List α}
    (h : l.Perm [a, b]) : l = [a, b] ∨ l = [b, a] := by
  have hlen : l.length = 2 := by simpa using h.length_eq
  obtain ⟨x, y, rfl⟩ : ∃ x y, l = [x, y] := by
    cases l with
    | nil => simp at hlen
    | cons x t =>
      cases t with
      | nil => simp at hlen
      | cons y u =>
        cases u with
        | nil => exact ⟨x, y, rfl⟩
        | cons z w => simp at hlen
  have hx : x ∈ [a, b] := h.mem_iff.mp (by simp)
  rcases List.mem_pair.mp hx with rfl | rfl
  · left
    have h2 : [y].Perm [b] := h.cons_inv
    rw [List.perm_singleton.mp h2]
  · right
    have h2 : [y].Perm [a] := (h.trans (List.Perm.swap x a [])).cons_inv
    rw [List.perm_singleton.mp h2]

/-- The evidence-building fold of the pomegranate `diagnosticar` collects the
per-item emissions in order. -/
theorem evidenciasPom_eq_flatMap (sintomas : List (String × String)) :
    evidenciasPom sintomas = sintomas.flatMap emitSintoma := by
  suffices h : ∀ acc : List (String × String),
      sintomas.foldl (fun acc p => acc ++ emitSintoma p) acc
        = acc ++ sintomas.flatMap emitSintoma by
    simpa [evidenciasPom] using h []
  induction sintomas with
  | nil => intro acc; simp
  | cons p rest ih => intro acc; simp [ih]

/-- Looking a key up in the built evidence dict: a symptom key finds its
binding in `sintomas`, every other key finds nothing. -/
theorem lookup_evidenciasPom (k : String) (sintomas : List (String × String)) :
    List.lookup k (evidenciasPom sintomas) =
      if k = "Fiebre" ∨ k = "Tos" ∨ k = "Dolor_cabeza" then List.lookup k sintomas
      else none := by
  rw [evidenciasPom_eq_flatMap]
  induction sintomas with
  | nil => split <;> rfl
  | cons p rest ih =>
    obtain ⟨n, v⟩ := p
    rw [List.flatMap_cons, List.lookup_append, ih]
    by_cases h1 : n = "Fiebre"
    · subst h1
      by_cases hk : k = "Fiebre"
      · subst hk
        simp [emitSintoma, List.lookup_cons]
      · have hbe : (k == "Fiebre") = false := beq_eq_false_iff_ne.mpr hk
        simp [emitSintoma, List.lookup_cons, hbe, hk]
    · by_cases h2 : n = "Tos"
      · subst h2
        by_cases hk : k = "Tos"
        · subst hk
          simp [emitSintoma, List.lookup_cons]
        · have hbe : (k == "Tos") = false := beq_eq_false_iff_ne.mpr hk
          simp [emitSintoma, List.lookup_cons, hbe, hk]
      · by_cases h3 : n = "Dolor_cabeza"
        · subst h3
          by_cases hk : k = "Dolor_cabeza"
          · subst hk
            simp [emitSintoma, List.lookup_cons]
          · have hbe : (k == "Dolor_cabeza") = false := beq_eq_false_iff_ne.mpr hk
            simp [emitSintoma, List.lookup_cons, hbe, hk]
        · by_cases hk : k = n
          · subst hk
            simp [emitSintoma, List.lookup_cons, h1, h2, h3]
          · have hbe : (k == n) = false := beq_eq_false_iff_ne.mpr hk
            simp [emitSintoma, List.lookup_cons, h1, h2, h3, hbe]

/-- Whether `sintomas` contains a recognized key equal to `n`. -/
def esClave (sintomas : List (String × String)) (n : String) : Bool :=
  sintomas.any fun p => reconocidos.contains p.1 && p.1 == n

/-- The `enfermedades` list left by the evidence-collection loop: the initial
list minus exactly the recognized keys of `sintomas`. -/
theorem foldl_paso_snd (sintomas : List (String × String)) :
    ∀ (ev : List (String × String)) (enfs : List String), enfs.Nodup →
      (sintomas.foldl paso (ev, enfs)).2 = enfs.filter fun n => !esClave sintomas n := by
  induction sintomas with
  | nil =>
    intro ev enfs _
    simp [esClave]
  | cons p rest ih =>
    intro ev enfs hnd
    rw [List.foldl_cons]
    by_cases hp : reconocidos.contains p.1
    · rw [show paso (ev, enfs) p = (ev ++ [p], enfs.erase p.1) from by
        simp only [paso]; rw [if_pos hp]]
      rw [ih _ _ (hnd.erase _)]
      rw [hnd.erase_eq_filter p.1]
      rw [List.filter_filter]
      apply List.filter_congr
      intro n hn
      rw [show esClave (p :: rest) n
          = ((reconocidos.contains p.1 && (p.1 == n)) || esClave rest n) from by
        simp only [esClave, List.any_cons]]
      rw [hp]
      by_cases hq : p.1 = n
      · subst hq
        simp
      · have hbe : (p.1 == n) = false := beq_eq_false_iff_ne.mpr hq
        have hne : n ≠ p.1 := fun hh => hq hh.symm
        simp [hbe, hne]
    · rw [show paso (ev, enfs) p = (ev, enfs) from by
        simp only [paso]; rw [if_neg hp]]
      rw [ih _ _ hnd]
      apply List.filter_congr
      intro n hn
      have hpf : reconocidos.contains p.1 = false := by simpa using hp
      rw [show esClave (p :: rest) n
          = ((reconocidos.contains p.1 && (p.1 == n)) || esClave rest n) from by
        simp only [esClave, List.any_cons]]
      rw [hpf]
      simp

/-- Everything in the collected `evidencias` came from `sintomas` and bears a
recognized key. -/
theorem mem_foldl_paso_fst (sintomas : List (String × String)) :
    ∀ (ev : List (String × String)) (enfs : List String) (q : String × String),
      q ∈ (sintomas.foldl paso (ev, enfs)).1 →
        q ∈ ev ∨ (q ∈ sintomas ∧ reconocidos.contains q.1 = true) := by
  induction sintomas with
  | nil => intro ev enfs q h; exact .inl h
  | cons p rest ih =>
    intro ev enfs q h
    rw [List.foldl_cons] at h
    by_cases hp : reconocidos.contains p.1
    · rw [show paso (ev, enfs) p = (ev ++ [p], enfs.erase p.1) from by
        simp only [paso]; rw [if_pos hp]] at h
      rcases ih _ _ _ h with hev | ⟨hmem, hrec⟩
      · rcases List.mem_append.mp hev with hq1 | hq2
        · exact .inl hq1
        · have hqp : q = p := by simpa using hq2
          subst hqp
          exact .inr ⟨List.mem_cons_self _ _, hp⟩
      · exact .inr ⟨List.mem_cons_of_mem _ hmem, hrec⟩
    · rw [show paso (ev, enfs) p = (ev, enfs) from by
        simp only [paso]; rw [if_neg hp]] at h
      rcases ih _ _ _ h with hev | ⟨hmem, hrec⟩
      · exact .inl hev
      · exact .inr ⟨List.mem_cons_of_mem _ hmem, hrec⟩

/-- A successful run of the query loop produces one diagnosis entry per
queried disease, keyed in order. -/
theorem consultas_ok_keys (evidencias : List (String × String)) :
    ∀ (enfs : List String) (d : List (String × List ℚ)),
      consultas evidencias enfs = .ok d → d.map Prod.fst = enfs := by
  intro enfs
  induction enfs with
  | nil =>
    intro d h
    cases h
    rfl
  | cons enf rest ih =>
    intro d h
    unfold consultas at h
    cases hq : queryPgmpy enf evidencias with
    | error e => rw [hq] at h; cases h
    | ok dist =>
      rw [hq] at h
      cases hr : consultas evidencias rest with
      | error e => rw [hr] at h; cases h
      | ok tail =>
        rw [hr] at h
        cases h
        simp [ih tail hr]

/- ===== Claim theorems ===== -/

/-- C1 (counterexample): for the pgmpy model, the case-1 query of `Gripe`
with evidence {Fiebre: Sí, Tos: Sí, Dolor_cabeza: No} returns
[2368/7065, 4697/7065] ≈ [0.335, 0.665]; P(Sí) is NOT strictly greater than
the unconditional prior P(Gripe = Sí) = 2/5 (which is 0.40, not ≈ 0.38). -/
theorem c1_gripe_not_raised_counterexample :
    distGripeCaso1 = some [2368/7065, 4697/7065] ∧
      enumPosterior jointPgmpy .Gripe 0 [] = 2/5 ∧
      ¬ ((2368 : ℚ)/7065 > 2/5) := by
  refine ⟨by decide, by decide, by decide⟩

/-- C1 (amended): the case-1 query of `Gripe` returns a two-state
distribution [2368/7065, 4697/7065] over {Sí, No} that sums to 1, but its
P(Sí) is strictly SMALLER than the unconditional prior
P(Gripe = Sí) = 2/5. -/
theorem c1_gripe_caso1_posterior :
    distGripeCaso1 = some [2368/7065, 4697/7065] ∧
      (2368 : ℚ)/7065 + 4697/7065 = 1 ∧
      (2368 : ℚ)/7065 < enumPosterior jointPgmpy .Gripe 0 [] := by
  refine ⟨by decide, by decide, by decide⟩

/-- C2: every CPT of the pgmpy and pomegranate models satisfies the local
normalization invariant exactly (every per-parent-assignment child sum is 1,
hence within the 1e-6 tolerance); the modelled `check_model` validation
passes, and `crear_red_pgmpy` runs it before returning the model. -/
theorem c2_cpds_locally_normalized :
    (cptRowSumsPgmpy.all fun z => decide (z = 1)) = true ∧
      (cptRowSumsPom.all fun z => decide (z = 1)) = true ∧
      check_model = true ∧
      crear_red_pgmpy = some cptsPgmpy := by
  refine ⟨by decide, by decide, by decide, ?_⟩
  unfold crear_red_pgmpy
  exact if_pos (by decide)

/-- C3: for every variable of the model, the variable-elimination query with
empty evidence equals the prior marginal obtained by direct enumeration of
the joint; in particular querying PG returns exactly [0.3, 0.4, 0.3]. -/
theorem c3_no_evidence_query_matches_enumeration :
    (∀ enf ∈ modelVars,
        veQuery cptsPgmpy [enf] [] (modelVars.erase enf)
          = .ok (enumDist jointPgmpy enf [])) ∧
      veQuery cptsPgmpy [.PG] [] (modelVars.erase .PG) = .ok [0.3, 0.4, 0.3] := by
  constructor
  · intro enf h
    fin_cases h <;> decide
  · decide

/-- C4 (counterexample): the pgmpy and pomegranate scripts do not encode the
same joint distribution — they differ at the assignment (PG = Alta,
Gripe = Sí, Neumonia = No, Fiebre = Sí, Tos = Sí, Dolor_cabeza = Sí), and the
shared case-1 query of Gripe gets different posteriors (2368/7065 vs
636/2005). -/
theorem c4_joint_mismatch_counterexample :
    jointPgmpy ⟨0, 0, 1, 0, 0, 0⟩ ≠ jointPom ⟨0, 0, 1, 0, 0, 0⟩ ∧
      enumPosterior jointPgmpy .Gripe 0 evidenciaCaso1
        ≠ enumPosterior jointPom .Gripe 0 evidenciaCaso1 := by
  refine ⟨by decide, by decide⟩

/-- C4 (amended): the pomegranate and PyMC variants encode the same joint
distribution, but the pgmpy variant differs in its Tos and Dolor_cabeza
CPTs — P(Tos = Sí | Neumonia = No) is 0.2 vs 0.3 and
P(Dolor_cabeza = Sí | Gripe = No) is 0.3 vs 0.2 — so its joint (and its
posteriors) disagree with the other two variants. -/
theorem c4_pom_pymc_agree_pgmpy_differs :
    (∀ a ∈ allAsgs, jointPom a = jointPyMC a) ∧
      cpd_tos 0 1 = 0.2 ∧ tosPom 1 0 = 0.3 ∧
      cpd_dolor 0 1 = 0.3 ∧ dolorPom 1 0 = 0.2 ∧
      jointPgmpy ⟨0, 0, 1, 0, 0, 0⟩ ≠ jointPom ⟨0, 0, 1, 0, 0, 0⟩ := by
  refine ⟨by decide, by decide, by decide, by decide, by decide, by decide⟩

/-- C5 (counterexample): the diagnosis function does not propagate a
structured error — on an input that makes inference fail (an invalid state
label) the inner query is an error, yet `diagnosticar_pgmpy` returns None;
moreover every full assignment of this model has strictly positive
probability, so no evidence combination can have zero support at all. -/
theorem c5_errors_swallowed_counterexample :
    (queryPgmpy ("PG") [("Fiebre", "Quizás")]).toOption = none ∧
      diagnosticarPgmpy [("Fiebre", "Quizás")] = none ∧
      ((allAsgs.map jointPgmpy).all fun w => decide (0 < w)) = true := by
  refine ⟨by decide, by decide, by decide⟩

/-- C5 (amended): every joint assignment of the model has positive
probability, so on every evidence assignment over the symptoms the
normalization step succeeds (it never raises `DegenerateFactorError`); when
inference does fail (e.g. an invalid state label), `diagnosticar_pgmpy`
catches the exception and returns None instead of propagating it. -/
theorem c5_no_degenerate_evidence_errors_swallowed :
    (∀ a ∈ allAsgs, 0 < jointPgmpy a) ∧
      (∀ ev ∈ evidenceCombos,
        enumQuery jointPgmpy .Gripe ev ≠ .error ("DegenerateFactorError")) ∧
      (queryPgmpy ("PG") [("Fiebre", "Quizás")]).toOption = none ∧
      diagnosticarPgmpy [("Fiebre", "Quizás")] = none := by
  refine ⟨by decide, ?_, by decide, by decide⟩
  intro ev h
  fin_cases h <;> decide

/-- C6: for the pgmpy model with targets {Gripe} and the case-1 evidence,
every permutation of the elimination order fed to the variable-elimination
engine yields the identical normalized posterior. -/
theorem c6_elimination_order_irrelevant (ord : List Var)
    (h : ord.Perm [Var.PG, Var.Neumonia]) :
    veQuery cptsPgmpy [Var.Gripe] evidenciaCaso1 ord =
      veQuery cptsPgmpy [Var.Gripe] evidenciaCaso1 [Var.PG, Var.Neumonia] := by
  rcases perm_pair_cases h with rfl | rfl
  · rfl
  · decide

/-- Witness for C6 at the concrete reversed order. -/
theorem c6_elimination_order_irrelevant_witness :
    veQuery cptsPgmpy [Var.Gripe] evidenciaCaso1 [Var.Neumonia, Var.PG] =
      veQuery cptsPgmpy [Var.Gripe] evidenciaCaso1 [Var.PG, Var.Neumonia] :=
  c6_elimination_order_irrelevant [Var.Neumonia, Var.PG] (by decide)

/-- C7: exact inference is deterministic — the empty-evidence diagnosis
reproduces every variable's CPT-derived marginal, and re-running each query
with a different internal elimination order returns the identical
distribution. -/
theorem c7_queries_deterministic :
    diagnosticarPgmpy [] = some
        [("PG", enumDist jointPgmpy .PG []),
         ("Gripe", enumDist jointPgmpy .Gripe []),
         ("Neumonia", enumDist jointPgmpy .Neumonia []),
         ("Tos", enumDist jointPgmpy .Tos []),
         ("Fiebre", enumDist jointPgmpy .Fiebre []),
         ("Dolor_cabeza", enumDist jointPgmpy .Dolor_cabeza [])] ∧
      ∀ enf ∈ modelVars,
        veQuery cptsPgmpy [enf] [] (modelVars.erase enf) =
          veQuery cptsPgmpy [enf] [] (modelVars.erase enf).reverse := by
  constructor
  · decide
  · intro enf h
    fin_cases h <;> decide

/-- C8: every CPT weight of all three variants is at least 0.1 (and 0.1 is
attained), every evidence assignment over {Fiebre, Tos, Dolor_cabeza} has
strictly positive support under each variant's joint, and the diagnosis
pipeline succeeds on every full valid symptom dictionary (the
contradictory-evidence branch is unreachable). -/
theorem c8_all_weights_positive :
    ((cptEntriesPgmpy ++ cptEntriesPom ++ cptEntriesPyMC).all
        fun w => decide (1/10 ≤ w)) = true ∧
      (cptEntriesPgmpy ++ cptEntriesPom ++ cptEntriesPyMC).min? = some (1/10) ∧
      (∀ ev ∈ evidenceCombos,
        0 < support jointPgmpy ev ∧ 0 < support jointPom ev ∧
          0 < support jointPyMC ev) ∧
      (∀ s ∈ sintomasValidosFull, (diagnosticarPgmpy s).isSome = true) := by
  refine ⟨by decide, by decide, ?_, ?_⟩
  · intro ev h
    fin_cases h <;> exact ⟨by decide, by decide, by decide⟩
  · intro s h
    fin_cases h <;> decide

/-- C9: the pomegranate `diagnosticar` forwards only the keys Fiebre, Tos and
Dolor_cabeza to inference: two symptom dictionaries agreeing on those three
keys yield the identical diagnosis, and any other key is silently ignored. -/
theorem c9_diagnosticar_depends_only_on_symptoms (s1 s2 : List (String × String))
    (hF : List.lookup ("Fiebre") s1 = List.lookup ("Fiebre") s2)
    (hT : List.lookup ("Tos") s1 = List.lookup ("Tos") s2)
    (hD : List.lookup ("Dolor_cabeza") s1 = List.lookup ("Dolor_cabeza") s2) :
    diagnosticarPom s1 = diagnosticarPom s2 := by
  have hcons : constraintOf (evidenciasPom s1) = constraintOf (evidenciasPom s2) := by
    funext v
    cases v
    case PG =>
      simp only [constraintOf, nombre]
      rw [lookup_evidenciasPom, lookup_evidenciasPom, if_neg (by decide), if_neg (by decide)]
    case Gripe =>
      simp only [constraintOf, nombre]
      rw [lookup_evidenciasPom, lookup_evidenciasPom, if_neg (by decide), if_neg (by decide)]
    case Neumonia =>
      simp only [constraintOf, nombre]
      rw [lookup_evidenciasPom, lookup_evidenciasPom, if_neg (by decide), if_neg (by decide)]
    case Fiebre =>
      simp only [constraintOf, nombre]
      rw [lookup_evidenciasPom, lookup_evidenciasPom, if_pos (by decide), if_pos (by decide)]
      exact hF
    case Tos =>
      simp only [constraintOf, nombre]
      rw [lookup_evidenciasPom, lookup_evidenciasPom, if_pos (by decide), if_pos (by decide)]
      exact hT
    case Dolor_cabeza =>
      simp only [constraintOf, nombre]
      rw [lookup_evidenciasPom, lookup_evidenciasPom, if_pos (by decide), if_pos (by decide)]
      exact hD
  unfold diagnosticarPom predict_proba
  rw [hcons]

/-- Witness for C9: an unknown key (Gripe) is silently ignored — adding it to
the symptom dictionary does not change the diagnosis. -/
theorem c9_unknown_key_ignored_witness :
    diagnosticarPom [("Gripe", "Sí"), ("Fiebre", "Sí")] =
      diagnosticarPom [("Fiebre", "Sí")] :=
  c9_diagnosticar_depends_only_on_symptoms _ _ (by decide) (by decide) (by decide)

/-- C10: in `diagnosticar_pgmpy` the queried diseases are exactly the six
model variables minus the recognized evidence keys, the query targets are
disjoint from the evidence keys, and a variable fixed by evidence never
appears in the returned diagnosis dictionary. -/
theorem c10_targets_complement_evidence (sintomas : List (String × String)) :
    (procesar sintomas).2 = enfermedadesInit.filter (fun n => !esClave sintomas n) ∧
      (∀ q ∈ (procesar sintomas).1, q.1 ∉ (procesar sintomas).2) ∧
      (∀ d, diagnosticarPgmpy sintomas = some d → d.map Prod.fst = (procesar sintomas).2) := by
  have hsnd := foldl_paso_snd sintomas [] enfermedadesInit (by decide)
  refine ⟨hsnd, ?_, ?_⟩
  · intro q hq hmem
    rcases mem_foldl_paso_fst sintomas [] enfermedadesInit q hq with hev | ⟨hs, hrec⟩
    · simp at hev
    · rw [show (procesar sintomas).2
          = enfermedadesInit.filter (fun n => !esClave sintomas n) from hsnd] at hmem
      have hq2 := (List.mem_filter.mp hmem).2
      have hcl : esClave sintomas q.1 = true :=
        List.any_eq_true.mpr ⟨q, hs, by rw [hrec]; simp⟩
      rw [hcl] at hq2
      simp at hq2
  · intro d h
    unfold diagnosticarPgmpy at h
    cases hc : consultas (procesar sintomas).1 (procesar sintomas).2 with
    | error e =>
      rw [hc] at h
      simp at h
    | ok diag =>
      rw [hc] at h
      simp at h
      subst h
      exact consultas_ok_keys _ _ _ hc
